import Mathlib

/-!
Shallow embedding of the kOps reconciliation-task code under scrutiny:
the AWS `NetworkLoadBalancer` task (`upup/pkg/fi/cloudup/awstasks/network_load_balancer.go`),
the Scaleway `Instance` task (`upup/pkg/fi/cloudup/scalewaytasks/instance.go`),
and the OpenStack cloud client's backoff policies.

Go conventions are modelled as follows: a `*string` / `*bool` field is an
`Option`; a Go slice field is an `Option (List _)` so that the `nil` slice and
the non-nil empty slice stay distinguishable (the source tests both `== nil`
and `len(...) == 0`); a Go `error` result is `Option Err` (`none` = the nil
error) or `Except Err _`; a Go map is an association list where the last
insertion for a key wins; cloud SDK calls are parameters (an environment of
responses), and functions that issue cloud calls also return the list of calls
issued, in order.
-/

/-- The errors the translated code can produce.  `requiredField` and
`cannotChangeField` model `fi.RequiredField` / `fi.CannotChangeField` from the
`fi` package, which wrap a field name; `awsError` models an `awserr.Error`
carrying a provider error code; `plainError` models an error built with
`fmt.Errorf`, which carries only its message (a type assertion to
`awserr.Error` fails on it). -/
inductive Err where
  | requiredField (field : String)
  | cannotChangeField (field : String)
  | awsError (code : String) (msg : String)
  | plainError (msg : String)
deriving DecidableEq, Repr

/-- The message of an error, as `%v` formatting would render it. -/
def Err.message : Err → String
  | .requiredField f => "Field is required: " ++ f
  | .cannotChangeField f => "Field cannot be changed: " ++ f
  | .awsError _ m => m
  | .plainError m => m

deriving instance DecidableEq for Except

/-- `fi.ValueOf` on a `*string`: the zero value `""` for nil. -/
def fiValueOf (s : Option String) : String := s.getD ""

namespace awstasks

/-- The fields of the `Subnet` task the `NetworkLoadBalancer` code reads:
`ID` (the subnet id), `ShortName` (matched against cluster subnets in
`Normalize`) and `Name` (the sort key of `OrderSubnetMappingsByName`). -/
structure Subnet where
  ID : Option String
  ShortName : Option String
  Name : Option String
deriving DecidableEq, Repr, Inhabited

structure SubnetMapping where
  Subnet : Subnet
  AllocationID : Option String
  PrivateIPv4Address : Option String
deriving DecidableEq, Repr, Inhabited

structure NetworkLoadBalancerListener where
  Port : Int
  TargetGroupName : String
  SSLCertificateID : String
  SSLPolicy : String
deriving DecidableEq, Repr, Inhabited

structure TargetGroup where
  Name : Option String
  ARN : Option String
deriving DecidableEq, Repr, Inhabited

structure NetworkLoadBalancerAccessLog where
  Enabled : Option Bool
  S3BucketName : Option String
  S3BucketPrefix : Option String
deriving DecidableEq, Repr, Inhabited

structure NetworkLoadBalancer where
  Name : Option String
  LoadBalancerName : Option String
  CLBName : Option String
  DNSName : Option String
  HostedZoneId : Option String
  SubnetMappings : Option (List SubnetMapping)
  Listeners : Option (List NetworkLoadBalancerListener)
  Scheme : Option String
  CrossZoneLoadBalancing : Option Bool
  IpAddressType : Option String
  Tags : List (String × String)
  «Type» : Option String
  TargetGroups : Option (List TargetGroup)
  AccessLog : Option NetworkLoadBalancerAccessLog
deriving DecidableEq, Repr, Inhabited

/-- The tail of the creation branch of `CheckChanges`: the `e.AccessLog`
checks, ending in the common `return nil`. -/
def checkAccessLog : Option NetworkLoadBalancerAccessLog → Option Err
  | none => none
  | some al =>
    if al.Enabled.isNone then some (.requiredField "Accesslog.Enabled")
    else if al.Enabled.getD false then
      if al.S3BucketName.isNone then some (.requiredField "Accesslog.S3Bucket")
      else none
    else none

/-- The `expectedSubnets` map built in the update branch of `CheckChanges`:
subnet id to its allocation id if set, else its private IPv4 address if set,
else nil.  Later entries overwrite earlier ones, as Go map insertion does. -/
def expectedSubnetsMap (sms : List SubnetMapping) : List (String × Option String) :=
  sms.map fun s =>
    (s.Subnet.ID.getD "",
      if s.AllocationID.isSome then s.AllocationID
      else if s.PrivateIPv4Address.isSome then s.PrivateIPv4Address
      else none)

/-- Go map lookup over an insertion-ordered association list: the last
insertion for a key wins. -/
def mapLookup (m : List (String × Option String)) (k : String) : Option (Option String) :=
  m.reverse.lookup k

/-- The loop over `a.SubnetMappings` in the update branch of `CheckChanges`,
with its two early-returned errors (the condition on the address settings is
the source's `||`). -/
def checkActualSubnets (m : List (String × Option String)) :
    List SubnetMapping → Option Err
  | [] => none
  | s :: rest =>
    match mapLookup m (s.Subnet.ID.getD "") with
    | none => some (.plainError "network load balancers do not support detaching subnets")
    | some eIP =>
      if fiValueOf eIP ≠ fiValueOf s.PrivateIPv4Address ∨ fiValueOf eIP ≠ fiValueOf s.AllocationID then
        some (.plainError "network load balancers do not support modifying address settings")
      else checkActualSubnets m rest

/-- A stable sort by a key: the translation of Go's `sort.Stable` with a
`Less` comparing keys.  A stable sort is determined by its comparison alone
(ties keep their input order), so the stable `insertionSort` with the
non-strict `key a ≤ key b` computes exactly what `sort.Stable` computes with
the strict `Less(i,j) = key i < key j`. -/
def sortByKey {α K : Type} [LinearOrder K] (key : α → K) (l : List α) : List α :=
  l.insertionSort fun a b => key a ≤ key b

/-- `sort.Stable(OrderListenersByPort(...))`: `Less` compares `Port`. -/
def sortListeners : List NetworkLoadBalancerListener → List NetworkLoadBalancerListener :=
  sortByKey fun l => l.Port

/-- Modelled from the spec: `OrderSubnetMappingsByName` is not in the excerpt;
the spec says unordered collections are sorted canonically by name, so subnet
mappings are ordered by the subnet's name. -/
def sortSubnetMappings : List SubnetMapping → List SubnetMapping :=
  sortByKey fun s => fiValueOf s.Subnet.Name

/-- Modelled from the spec: `OrderTargetGroupsByName` is not in the excerpt;
target groups are ordered by name. -/
def sortTargetGroups : List TargetGroup → List TargetGroup :=
  sortByKey fun t => fiValueOf t.Name

/-- The part of a cluster subnet spec `Normalize` reads
(`c.T.Cluster.Spec.Networking.Subnets`). -/
structure ClusterSubnet where
  Name : String
  IPv6CIDR : String
deriving DecidableEq, Repr

/-- The loop of `Normalize` that fills `e.IpAddressType`: start from
"dualstack", and set "ipv4" on every subnet mapping whose subnet short name
matches a cluster subnet with an empty `IPv6CIDR`. -/
def normalizeIpAddressType (clusterSubnets : List ClusterSubnet)
    (sms : List SubnetMapping) : String :=
  sms.foldl
    (fun acc sm =>
      clusterSubnets.foldl
        (fun acc2 cs =>
          if cs.Name = fiValueOf sm.Subnet.ShortName ∧ cs.IPv6CIDR = "" then "ipv4" else acc2)
        acc)
    "dualstack"

/-- `(*NetworkLoadBalancer) Normalize(c)`: sorts the three collections and
recomputes `IpAddressType` from the cluster's subnets. -/
def NetworkLoadBalancer.Normalize (clusterSubnets : List ClusterSubnet)
    (e : NetworkLoadBalancer) : NetworkLoadBalancer :=
  let sms := e.SubnetMappings.map sortSubnetMappings
  { e with
    SubnetMappings := sms
    Listeners := e.Listeners.map sortListeners
    TargetGroups := e.TargetGroups.map sortTargetGroups
    IpAddressType := some (normalizeIpAddressType clusterSubnets (sms.getD [])) }

/-- The fields of `elbv2.LoadBalancer` this code reads. -/
structure ELBV2LoadBalancer where
  LoadBalancerName : Option String
  LoadBalancerArn : Option String
  DNSName : Option String
  CanonicalHostedZoneId : Option String
  VpcId : Option String
  Scheme : Option String
  «Type» : Option String
  IpAddressType : Option String
deriving DecidableEq, Repr, Inhabited

/-- `describeNetworkLoadBalancers(cloud, request, filter)`: pages through
`DescribeLoadBalancersPages` (its outcome is the parameter `pages`) and keeps
the load balancers accepted by `filter`; an error from the SDK call is wrapped
with `fmt.Errorf`, which loses the `awserr.Error` type. -/
def describeNetworkLoadBalancers (pages : Except Err (List ELBV2LoadBalancer))
    (filter : ELBV2LoadBalancer → Bool) : Except Err (List ELBV2LoadBalancer) :=
  match pages with
  | .error err => .error (.plainError ("error listing NLBs: " ++ err.message))
  | .ok lbs => .ok (lbs.filter filter)

/-- `findNetworkLoadBalancerByLoadBalancerName(cloud, loadBalancerName)`.
The `awserr.Error` type assertion succeeds only on an `awsError`; the
"LoadBalancerNotFound" branch tests the error `describeNetworkLoadBalancers`
returned. -/
def findNetworkLoadBalancerByLoadBalancerName (loadBalancerName : String)
    (pages : Except Err (List ELBV2LoadBalancer)) : Except Err (Option ELBV2LoadBalancer) :=
  match describeNetworkLoadBalancers pages
      (fun lb => fiValueOf lb.LoadBalancerName == loadBalancerName) with
  | .error err =>
    match err with
    | .awsError code _ =>
      if code = "LoadBalancerNotFound" then .ok none
      else .error (.plainError ("error listing NLBs: " ++ err.message))
    | _ => .error (.plainError ("error listing NLBs: " ++ err.message))
  | .ok found =>
    if found.length = 0 then .ok none
    else if found.length ≠ 1 then
      .error (.plainError ("Found multiple NLBs with name " ++ loadBalancerName))
    else .ok found.head?

/-- The fields of `elb.LoadBalancerDescription` (the legacy classic load
balancer) that `FindDeletions` reads: its name and its registered instances
(the commented-out target check reads `lb.Instances`). -/
structure ClassicLoadBalancer where
  LoadBalancerName : Option String
  Instances : List String
deriving DecidableEq, Repr, Inhabited

/-- The deletion task `FindDeletions` returns (`deleteClassicLoadBalancer`). -/
structure DeleteClassicLoadBalancer where
  LoadBalancerName : Option String
deriving DecidableEq, Repr, Inhabited

/-- `(*NetworkLoadBalancer) FindDeletions(context)`.  `clbLookup` is the
outcome of `cloud.FindELBByNameTag(fi.ValueOf(e.CLBName))`.  The source's
check that the classic load balancer no longer has registered targets
(`len(lb.Instances) > 0`) is commented out, so the deletion is returned for
any existing classic load balancer. -/
def NetworkLoadBalancer.FindDeletions (e : NetworkLoadBalancer)
    (clbLookup : Except Err (Option ClassicLoadBalancer)) :
    Except Err (List DeleteClassicLoadBalancer) :=
  match e.CLBName with
  | none => .ok []
  | some _ =>
    match clbLookup with
    | .error err => .error err
    | .ok none => .ok []
    | .ok (some lb) => .ok [{ LoadBalancerName := lb.LoadBalancerName }]

/-- `(*NetworkLoadBalancer) CheckChanges(a, e, changes)`. -/
def NetworkLoadBalancer.CheckChanges (a : Option NetworkLoadBalancer)
    (e changes : NetworkLoadBalancer) : Option Err :=
  match a with
  | none =>
    if fiValueOf e.Name = "" then some (.requiredField "Name")
    else if (e.SubnetMappings.getD []).length = 0 then some (.requiredField "SubnetMappings")
    else if e.CrossZoneLoadBalancing.isSome then
      if e.CrossZoneLoadBalancing.isNone then some (.requiredField "CrossZoneLoadBalancing")
      else checkAccessLog e.AccessLog
    else checkAccessLog e.AccessLog
  | some a =>
    if 0 < (changes.SubnetMappings.getD []).length then
      checkActualSubnets (expectedSubnetsMap (e.SubnetMappings.getD []))
        (a.SubnetMappings.getD [])
    else none

/-- The cloud API calls `RenderAWS` can issue, in the order issued.
`describeLoadBalancers`, `describeListeners` and `waitUntilAvailable` read;
the rest mutate. -/
inductive AWSCall where
  | describeLoadBalancers
  | createLoadBalancer (name : String)
  | waitUntilAvailable (name : String)
  | createListener (port : Int)
  | setIpAddressType
  | setSubnets
  | describeListeners
  | deleteListener (arn : Option String)
  | addTags
  | removeTags
  | modifyLoadBalancerAttributes
deriving DecidableEq, Repr

def AWSCall.isMutating : AWSCall → Bool
  | .describeLoadBalancers => false
  | .describeListeners => false
  | .waitUntilAvailable _ => false
  | _ => true

/-- The field of a described `elbv2.Listener` the update path reads when it
deletes listeners before recreating them. -/
structure ELBV2ListenerDescription where
  ListenerArn : Option String
deriving DecidableEq, Repr, Inhabited

/-- The cloud's responses to the calls `RenderAWS` issues (each call kind
answered uniformly). -/
structure AWSCloudEnv where
  describePages : Except Err (List ELBV2LoadBalancer)
  createLoadBalancerResult : Except Err (List ELBV2LoadBalancer)
  waitResult : Except Err Unit
  createListenerResult : Except Err Unit
  deleteListenerResult : Except Err Unit
  describeListenersResult : Except Err (List ELBV2ListenerDescription)
  setIpAddressTypeResult : Except Err Unit
  setSubnetsResult : Except Err Unit

/-- The fields of `elbv2.CreateListenerInput` that `mapToAWS` fills. -/
structure CreateListenerInput where
  TargetGroupArn : String
  LoadBalancerArn : String
  Port : Int
  Certificates : List String
  Protocol : String
  SslPolicy : Option String
deriving DecidableEq, Repr

/-- `(*NetworkLoadBalancerListener) mapToAWS(targetGroups, loadBalancerArn)`:
the last target group whose name matches wins, an empty ARN is an error. -/
def NetworkLoadBalancerListener.mapToAWS (e : NetworkLoadBalancerListener)
    (targetGroups : List TargetGroup) (loadBalancerArn : String) :
    Except Err CreateListenerInput :=
  let tgARN := targetGroups.foldl
    (fun acc tg => if fiValueOf tg.Name = e.TargetGroupName then fiValueOf tg.ARN else acc) ""
  if tgARN = "" then .error (.plainError "target group not found for NLB listener")
  else
    let base : CreateListenerInput :=
      { TargetGroupArn := tgARN, LoadBalancerArn := loadBalancerArn, Port := e.Port,
        Certificates := [], Protocol := "TCP", SslPolicy := none }
    if e.SSLCertificateID ≠ "" then
      let ssl : Option String := if e.SSLPolicy ≠ "" then some e.SSLPolicy else none
      .ok { base with Certificates := [e.SSLCertificateID], Protocol := "TLS", SslPolicy := ssl }
    else .ok base

/-- Sequencing of two traced steps: the second runs (and its calls count)
only when the first succeeded. -/
def seqSteps (s1 s2 : Except Err Unit × List AWSCall) : Except Err Unit × List AWSCall :=
  match s1 with
  | (.error err, calls) => (.error err, calls)
  | (.ok _, calls) => (s2.1, calls ++ s2.2)

/-- The `CreateListener` loop shared by the creation path (prefix
"error creating listener for NLB: ") and the update path (prefix
"error creating NLB listener: "). -/
def createListenersLoop (env : AWSCloudEnv) (tgs : List TargetGroup)
    (arn : String) (errPrefix : String) :
    List NetworkLoadBalancerListener → Except Err Unit × List AWSCall
  | [] => (.ok (), [])
  | l :: rest =>
    match l.mapToAWS tgs arn with
    | .error err => (.error err, [])
    | .ok _ =>
      match env.createListenerResult with
      | .error err => (.error (.plainError (errPrefix ++ err.message)), [.createListener l.Port])
      | .ok _ =>
        let r := createListenersLoop env tgs arn errPrefix rest
        (r.1, .createListener l.Port :: r.2)

/-- The `DeleteListener` loop of the update path: delete every existing
listener before recreating the changed ones. -/
def deleteListenersLoop (env : AWSCloudEnv) :
    List ELBV2ListenerDescription → Except Err Unit × List AWSCall
  | [] => (.ok (), [])
  | l :: rest =>
    match env.deleteListenerResult with
    | .error err =>
      (.error (.plainError ("error deleting load balancer listener: " ++ err.message)),
        [.deleteListener l.ListenerArn])
    | .ok _ =>
      let r := deleteListenersLoop env rest
      (r.1, .deleteListener l.ListenerArn :: r.2)

/-- Modelled from the spec: `awsup.AWSAPITarget.AddELBV2Tags` is not in the
excerpt; per the spec a renderer applies only the minimal mutating calls, so
the helper issues an `AddTags` call only when some desired tag is missing from
the current ones. -/
def addELBV2TagsCalls (currentTags desiredTags : List (String × String)) : List AWSCall :=
  if desiredTags.all (fun kv => currentTags.contains kv) then [] else [.addTags]

/-- Modelled from the spec: `awsup.AWSAPITarget.RemoveELBV2Tags` is not in the
excerpt; it issues a `RemoveTags` call only when some current tag key is not
desired any more. -/
def removeELBV2TagsCalls (currentTags desiredTags : List (String × String)) : List AWSCall :=
  if currentTags.all (fun kv => (desiredTags.map Prod.fst).contains kv.1) then []
  else [.removeTags]

/-- Modelled from the spec: `modifyLoadBalancerAttributes` (in
`network_load_balancer_attributes.go`, not in the excerpt) applies the
attribute deltas, so it issues a mutating call only when the changes object
carries an attribute delta (`CrossZoneLoadBalancing` or `AccessLog`). -/
def modifyLoadBalancerAttributesCalls (changes : NetworkLoadBalancer) : List AWSCall :=
  if changes.CrossZoneLoadBalancing.isSome ∨ changes.AccessLog.isSome then
    [.modifyLoadBalancerAttributes]
  else []

/-- The `changes.IpAddressType != nil` step of the update path. -/
def stepSetIpAddressType (env : AWSCloudEnv) (changes : NetworkLoadBalancer) :
    Except Err Unit × List AWSCall :=
  if changes.IpAddressType.isSome then
    match env.setIpAddressTypeResult with
    | .error err =>
      (.error (.plainError ("error setting the IP addresses type: " ++ err.message)),
        [.setIpAddressType])
    | .ok _ => (.ok (), [.setIpAddressType])
  else (.ok (), [])

/-- The `actualSubnets` map of the update path: both `if`s run, so a private
IPv4 address overwrites an allocation id for the same subnet. -/
def actualSubnetsMap (sms : List SubnetMapping) : List (String × Option String) :=
  sms.foldl
    (fun m s =>
      let m1 := if s.AllocationID.isSome then m ++ [(s.Subnet.ID.getD "", s.AllocationID)] else m
      if s.PrivateIPv4Address.isSome then m1 ++ [(s.Subnet.ID.getD "", s.PrivateIPv4Address)]
      else m1)
    []

/-- The `changes.SubnetMappings != nil` step of the update path: compute
`hasChanges` over the expected mappings and call `SetSubnets` when set. -/
def stepSetSubnets (env : AWSCloudEnv) (a e changes : NetworkLoadBalancer) :
    Except Err Unit × List AWSCall :=
  if changes.SubnetMappings.isSome then
    let m := actualSubnetsMap (a.SubnetMappings.getD [])
    let hasChanges := (e.SubnetMappings.getD []).any fun s =>
      match mapLookup m (s.Subnet.ID.getD "") with
      | none => true
      | some aIP =>
        decide (fiValueOf s.PrivateIPv4Address ≠ fiValueOf aIP) &&
          decide (fiValueOf s.AllocationID ≠ fiValueOf aIP)
    if hasChanges then
      match env.setSubnetsResult with
      | .error err =>
        (.error (.plainError ("error attaching load balancer to new subnets: " ++ err.message)),
          [.setSubnets])
      | .ok _ => (.ok (), [.setSubnets])
    else (.ok (), [])
  else (.ok (), [])

/-- The `changes.Listeners != nil` step of the update path: list the existing
listeners, delete each, then recreate the listeners of `changes`.  (The `lb !=
nil` guard always holds on this path.) -/
def stepListeners (env : AWSCloudEnv) (e changes : NetworkLoadBalancer)
    (arn : String) : Except Err Unit × List AWSCall :=
  if changes.Listeners.isSome then
    match env.describeListenersResult with
    | .error err =>
      (.error (.plainError ("error querying for NLB listeners :" ++ err.message)),
        [.describeListeners])
    | .ok existing =>
      let r := seqSteps (deleteListenersLoop env existing)
        (createListenersLoop env (e.TargetGroups.getD []) arn
          "error creating NLB listener: " (changes.Listeners.getD []))
      (r.1, .describeListeners :: r.2)
  else (.ok (), [])

/-- The creation path of `RenderAWS` (`a == nil`), after the listener/target
group length check. -/
def renderAWSCreate (env : AWSCloudEnv) (e changes : NetworkLoadBalancer) :
    Except Err Unit × List AWSCall :=
  if e.LoadBalancerName.isNone then (.error (.requiredField "LoadBalancerName"), [])
  else if (e.TargetGroups.getD []).any (fun tg => tg.ARN.isNone) then
    (.error (.plainError "missing required target group ARN for NLB creation"), [])
  else
    let loadBalancerName := e.LoadBalancerName.getD ""
    match env.createLoadBalancerResult with
    | .error err =>
      (.error (.plainError ("error creating NLB " ++ loadBalancerName ++ ": " ++ err.message)),
        [.createLoadBalancer loadBalancerName])
    | .ok lbs =>
      if lbs.length ≠ 1 then
        (.error (.plainError ("error creating NLB " ++ loadBalancerName ++ ": found " ++
            toString lbs.length)),
          [.createLoadBalancer loadBalancerName])
      else
        let lb := lbs.head?.getD default
        let loadBalancerArn := fiValueOf lb.LoadBalancerArn
        let doWait := (e.TargetGroups.getD []).any
          (fun tg => (fiValueOf tg.Name).startsWith "kops-controller")
        let waitCalls : List AWSCall :=
          if doWait then [.waitUntilAvailable loadBalancerName] else []
        match (if doWait then env.waitResult else .ok ()) with
        | .error err =>
          (.error (.plainError ("error waiting for NLB " ++ loadBalancerName ++ ": " ++ err.message)),
            .createLoadBalancer loadBalancerName :: waitCalls)
        | .ok _ =>
          let r := seqSteps
            (createListenersLoop env (e.TargetGroups.getD []) loadBalancerArn
              "error creating listener for NLB: " (e.Listeners.getD []))
            (.ok (), modifyLoadBalancerAttributesCalls changes)
          (r.1, .createLoadBalancer loadBalancerName :: (waitCalls ++ r.2))

/-- The update path of `RenderAWS` (`a != nil`): look the load balancer up by
name, then apply the per-field steps, the tag reconciliation and the attribute
modification.  `fi.ValueOf(lb.LoadBalancerArn)` dereferences `lb`, so a nil
lookup result is the run-time nil-pointer panic. -/
def renderAWSUpdate (env : AWSCloudEnv) (a e changes : NetworkLoadBalancer) :
    Except Err Unit × List AWSCall :=
  let loadBalancerName := fiValueOf a.LoadBalancerName
  match findNetworkLoadBalancerByLoadBalancerName loadBalancerName env.describePages with
  | .error err =>
    (.error (.plainError ("error getting load balancer by name: " ++ err.message)),
      [.describeLoadBalancers])
  | .ok none =>
    (.error (.plainError "runtime error: invalid memory address or nil pointer dereference"),
      [.describeLoadBalancers])
  | .ok (some lb) =>
    let arn := fiValueOf lb.LoadBalancerArn
    let r := seqSteps (stepSetIpAddressType env changes)
      (seqSteps (stepSetSubnets env a e changes)
        (seqSteps (stepListeners env e changes arn)
          (seqSteps (.ok (), addELBV2TagsCalls a.Tags e.Tags)
            (seqSteps (.ok (), removeELBV2TagsCalls a.Tags e.Tags)
              (.ok (), modifyLoadBalancerAttributesCalls changes)))))
    (r.1, .describeLoadBalancers :: r.2)

/-- `(*NetworkLoadBalancer) RenderAWS(t, a, e, changes)`: the listener/target
group length check comes before everything else; then the creation or update
path. -/
def NetworkLoadBalancer.RenderAWS (env : AWSCloudEnv) (a : Option NetworkLoadBalancer)
    (e changes : NetworkLoadBalancer) : Except Err Unit × List AWSCall :=
  if (e.Listeners.getD []).length ≠ (e.TargetGroups.getD []).length then
    (.error (.plainError ("nlb listeners and target groups do not match: " ++
        toString (e.Listeners.getD []).length ++ " listeners vs " ++
        toString (e.TargetGroups.getD []).length ++ " target groups")),
      [])
  else
    match a with
    | none => renderAWSCreate env e changes
    | some a => renderAWSUpdate env a e changes

end awstasks

namespace scalewaytasks

structure Instance where
  Name : Option String
  Zone : Option String
  Role : Option String
  CommercialType : Option String
  Image : Option String
  Tags : List String
  Count : Int
deriving DecidableEq, Repr, Inhabited

/-- `(*Instance) CheckChanges(actual, expected, changes)`. -/
def Instance.CheckChanges (actual : Option Instance)
    (expected changes : Instance) : Option Err :=
  match actual with
  | some _ =>
    if changes.Name.isSome then some (.cannotChangeField "Name")
    else if changes.Zone.isSome then some (.cannotChangeField "Zone")
    else if changes.CommercialType.isSome then some (.cannotChangeField "CommercialType")
    else if changes.Image.isSome then some (.cannotChangeField "Image")
    else none
  | none =>
    if expected.Name.isNone then some (.requiredField "Name")
    else if expected.Zone.isNone then some (.requiredField "Zone")
    else if expected.CommercialType.isNone then some (.requiredField "CommercialType")
    else if expected.Image.isNone then some (.requiredField "Image")
    else none

/-- The tag constant `scaleway.TagRoleControlPlane` from the `scaleway` cloud
package (`TagRoleControlPlane = "ControlPlane"` in its `const` block). -/
def TagRoleControlPlane : String := "ControlPlane"

/-- The fields of a Scaleway `instance.Server` this code reads. -/
structure ScwServer where
  ID : String
  Zone : String
  Name : String
  CommercialType : String
  Tags : List String
  PrivateIP : Option String
deriving DecidableEq, Repr, Inhabited

structure ScwLoadBalancer where
  ID : String
  Name : String
deriving DecidableEq, Repr, Inhabited

structure ScwBackend where
  ID : String
deriving DecidableEq, Repr, Inhabited

/-- The cloud API calls `RenderScw` can issue, in the order issued.
`getClusterServers`, `getClusterLoadBalancers`, `getServer`, `listBackends`,
`waitForServer` and `waitForLb` read; the rest mutate. -/
inductive ScwCall where
  | createServer (name : String)
  | waitForServer (id : String)
  | setServerUserData (id : String)
  | serverAction (id : String)
  | getServer (id : String)
  | deleteServer (name : String)
  | getClusterServers
  | getClusterLoadBalancers
  | listBackends (lbID : String)
  | addBackendServers (backendID : String)
  | removeBackendServers (backendID : String)
  | waitForLb (lbID : String)
deriving DecidableEq, Repr

def ScwCall.isMutating : ScwCall → Bool
  | .createServer _ => true
  | .setServerUserData _ => true
  | .serverAction _ => true
  | .deleteServer _ => true
  | .addBackendServers _ => true
  | .removeBackendServers _ => true
  | _ => false

/-- The cloud's responses to the calls `RenderScw` issues (each call kind
answered uniformly).  `userData` is the outcome of
`fi.ResourceAsBytes(*expected.UserData)`, read before anything else. -/
structure ScwCloudEnv where
  userData : Except Err String
  createServerResult : Except Err ScwServer
  waitForServerResult : Except Err Unit
  setUserDataResult : Except Err Unit
  serverActionResult : Except Err Unit
  getServerResult : Except Err ScwServer
  getClusterServersResult : Except Err (List ScwServer)
  deleteServerResult : Except Err Unit
  getClusterLoadBalancersResult : Except Err (List ScwLoadBalancer)
  listBackendsResult : Except Err (List ScwBackend)
  addBackendServersResult : Except Err Unit
  removeBackendServersResult : Except Err Unit
  waitForLbResult : Except Err Unit

/-- The creation loop of `RenderScw` (`for i := 0; i < newInstanceCount; i++`):
create each server, wait for it, set its user data, power it on, wait again,
and collect its private IP when the group has the control-plane role.
`i` is the loop index, `remaining` the iterations left. -/
def createInstancesLoop (env : ScwCloudEnv) (expected : Instance)
    (actualCount : Int) : Nat → Nat → Except Err (List String) × List ScwCall
  | _, 0 => (.ok [], [])
  | i, remaining + 1 =>
    let uniqueName := fiValueOf expected.Name ++ "-" ++ toString ((i : Int) + actualCount)
    match env.createServerResult with
    | .error err =>
      (.error (.plainError ("error creating instance of group: " ++ err.message)),
        [.createServer uniqueName])
    | .ok srv =>
      match env.waitForServerResult with
      | .error err =>
        (.error (.plainError ("error waiting for instance: " ++ err.message)),
          [.createServer uniqueName, .waitForServer srv.ID])
      | .ok _ =>
        match env.setUserDataResult with
        | .error err =>
          (.error (.plainError ("error setting cloud-init in user-data: " ++ err.message)),
            [.createServer uniqueName, .waitForServer srv.ID, .setServerUserData srv.ID])
        | .ok _ =>
          match env.serverActionResult with
          | .error err =>
            (.error (.plainError ("error powering on instance: " ++ err.message)),
              [.createServer uniqueName, .waitForServer srv.ID, .setServerUserData srv.ID,
                .serverAction srv.ID])
          | .ok _ =>
            match env.waitForServerResult with
            | .error err =>
              (.error (.plainError ("error waiting for instance: " ++ err.message)),
                [.createServer uniqueName, .waitForServer srv.ID, .setServerUserData srv.ID,
                  .serverAction srv.ID, .waitForServer srv.ID])
            | .ok _ =>
              let head : List ScwCall :=
                [.createServer uniqueName, .waitForServer srv.ID, .setServerUserData srv.ID,
                  .serverAction srv.ID, .waitForServer srv.ID]
              if fiValueOf expected.Role = TagRoleControlPlane then
                match env.getServerResult with
                | .error err =>
                  (.error (.plainError ("getting server: " ++ err.message)),
                    head ++ [.getServer srv.ID])
                | .ok server =>
                  match server.PrivateIP with
                  | none =>
                    (.error (.plainError
                        "runtime error: invalid memory address or nil pointer dereference"),
                      head ++ [.getServer srv.ID])
                  | some ip =>
                    let r := createInstancesLoop env expected actualCount (i + 1) remaining
                    (r.1.map fun ips => ip :: ips, head ++ [.getServer srv.ID] ++ r.2)
              else
                let r := createInstancesLoop env expected actualCount (i + 1) remaining
                (r.1, head ++ r.2)

/-- The deletion loop of `RenderScw` (`for i := 0; i > newInstanceCount; i--`):
the `idx`-th listed instance of the group is deleted each round (`i * -1`
indexes the listing, an out-of-range index is the run-time panic); the private
IP of a control-plane instance is collected (dereferenced) before deletion. -/
def deleteInstancesLoop (env : ScwCloudEnv) (actual : Instance)
    (igInstances : List ScwServer) : Nat → Nat → Except Err (List String) × List ScwCall
  | _, 0 => (.ok [], [])
  | idx, remaining + 1 =>
    match igInstances.get? idx with
    | none => (.error (.plainError "runtime error: index out of range"), [])
    | some toDelete =>
      let collect : Except Err (List String) :=
        if fiValueOf actual.Role = TagRoleControlPlane then
          match toDelete.PrivateIP with
          | none => .error (.plainError
              "runtime error: invalid memory address or nil pointer dereference")
          | some ip => .ok [ip]
        else .ok []
      match collect with
      | .error err => (.error err, [])
      | .ok ips =>
        match env.deleteServerResult with
        | .error err =>
          (.error (.plainError ("error deleting instance of group: " ++ err.message)),
            [.deleteServer toDelete.Name])
        | .ok _ =>
          let r := deleteInstancesLoop env actual igInstances (idx + 1) remaining
          (r.1.map fun rest => ips ++ rest, .deleteServer toDelete.Name :: r.2)

/-- The load-balancer back-end update loop of `RenderScw`: for each cluster
load balancer, list its back-ends (exactly one is legal), add or remove the
collected control-plane IPs, and wait for the load balancer. -/
def updateLoadBalancersLoop (env : ScwCloudEnv) (adding : Bool) :
    List ScwLoadBalancer → Except Err Unit × List ScwCall
  | [] => (.ok (), [])
  | lb :: rest =>
    match env.listBackendsResult with
    | .error err =>
      (.error (.plainError ("listing load-balancer's back-ends for instance creation: " ++
          err.message)),
        [.listBackends lb.ID])
    | .ok backends =>
      if 1 < backends.length then
        (.error (.plainError ("cannot have multiple back-ends for load-balancer " ++ lb.Name)),
          [.listBackends lb.ID])
      else if backends.length < 1 then
        (.error (.plainError ("load-balancer " ++ lb.Name ++ " should have 1 back-end, got 0")),
          [.listBackends lb.ID])
      else
        let backEnd := backends.head?.getD default
        let callAndResult : ScwCall × Except Err Unit :=
          if adding then (.addBackendServers backEnd.ID, env.addBackendServersResult)
          else (.removeBackendServers backEnd.ID, env.removeBackendServersResult)
        match callAndResult.2 with
        | .error err =>
          (.error (.plainError ("updating load-balancer's back-end: " ++ err.message)),
            [.listBackends lb.ID, callAndResult.1])
        | .ok _ =>
          match env.waitForLbResult with
          | .error err =>
            (.error (.plainError ("waiting for load-balancer: " ++ err.message)),
              [.listBackends lb.ID, callAndResult.1, .waitForLb lb.ID])
          | .ok _ =>
            let r := updateLoadBalancersLoop env adding rest
            (r.1, .listBackends lb.ID :: callAndResult.1 :: .waitForLb lb.ID :: r.2)

/-- The body of `RenderScw` past the early return: creation of missing
instances, deletion of surplus ones, and the load-balancer back-end update
when control-plane IPs were collected. -/
def renderScwMain (env : ScwCloudEnv) (actual : Option Instance)
    (expected : Instance) (newInstanceCount : Int) : Except Err Unit × List ScwCall :=
  let actualCount : Int := match actual with | some a => a.Count | none => 0
  let created := createInstancesLoop env expected actualCount 0 newInstanceCount.toNat
  match created.1 with
  | .error err => (.error err, created.2)
  | .ok createdIPs =>
    let afterDelete : Except Err (List String) × List ScwCall :=
      if newInstanceCount < 0 then
        match actual with
        | none =>
          (.error (.plainError
              "runtime error: invalid memory address or nil pointer dereference"),
            created.2)
        | some a =>
          match env.getClusterServersResult with
          | .error err =>
            (.error (.plainError ("error deleting instance: " ++ err.message)),
              created.2 ++ [.getClusterServers])
          | .ok igInstances =>
            let deleted := deleteInstancesLoop env a igInstances 0 (-newInstanceCount).toNat
            (deleted.1.map fun ips => createdIPs ++ ips,
              created.2 ++ .getClusterServers :: deleted.2)
      else (.ok createdIPs, created.2)
    match afterDelete.1 with
    | .error err => (.error err, afterDelete.2)
    | .ok controlPlanePrivateIPs =>
      if 0 < controlPlanePrivateIPs.length then
        match env.getClusterLoadBalancersResult with
        | .error err =>
          (.error (.plainError ("listing load-balancers for instance creation: " ++ err.message)),
            afterDelete.2 ++ [.getClusterLoadBalancers])
        | .ok lbs =>
          let r := updateLoadBalancersLoop env (0 < newInstanceCount) lbs
          (r.1, afterDelete.2 ++ .getClusterLoadBalancers :: r.2)
      else (.ok (), afterDelete.2)

/-- `(*Instance) RenderScw(t, actual, expected, changes)`: read the user data,
return nil at once when the actual count already equals the expected count,
otherwise create or delete the difference. -/
def Instance.RenderScw (env : ScwCloudEnv) (actual : Option Instance)
    (expected : Instance) : Except Err Unit × List ScwCall :=
  match env.userData with
  | .error err => (.error (.plainError ("error rendering instances: " ++ err.message)), [])
  | .ok _ =>
    match actual with
    | some a =>
      if expected.Count = a.Count then (.ok (), [])
      else renderScwMain env actual expected (expected.Count - a.Count)
    | none => renderScwMain env actual expected expected.Count

end scalewaytasks

namespace openstack

/-- `k8s.io/apimachinery/pkg/util/wait.Backoff` as the OpenStack cloud client
fills it.  `Duration`, `Factor` and `Jitter` are Go float64 constants; each of
the constants appearing in the source (1, 1.5, 2, 5, 0.1) is compared only
against the others, so they are represented exactly as rationals. -/
structure Backoff where
  Duration : ℚ
  Factor : ℚ
  Jitter : ℚ
  Steps : Nat
deriving DecidableEq, Repr

/-- readBackoff is the backoff strategy for openstack read retries. -/
def readBackoff : Backoff :=
  { Duration := 1, Factor := 3/2, Jitter := 1/10, Steps := 10 }

/-- writeBackoff is the backoff strategy for openstack write retries. -/
def writeBackoff : Backoff :=
  { Duration := 1, Factor := 2, Jitter := 1/10, Steps := 5 }

/-- deleteBackoff is the backoff strategy for openstack delete retries. -/
def deleteBackoff : Backoff :=
  { Duration := 1, Factor := 5, Jitter := 1/10, Steps := 4 }

end openstack

/-! Statement helpers and concrete example data used by the theorems below. -/

/-- Whether a `CheckChanges` outcome is the error `RequiredField("CrossZoneLoadBalancing")`. -/
def isRequiredCrossZone : Option Err → Bool
  | some (Err.requiredField "CrossZoneLoadBalancing") => true
  | _ => false

/-- Whether a `CheckChanges` outcome is a `CannotChangeField` error. -/
def isCannotChange : Option Err → Bool
  | some (Err.cannotChangeField _) => true
  | _ => false

/-- The creation contract on `AccessLog`: absent, or with `Enabled` set and,
when enabled, an `S3BucketName`. -/
def accessLogFieldsSet : Option awstasks.NetworkLoadBalancerAccessLog → Bool
  | none => true
  | some al => al.Enabled.isSome && (!(al.Enabled == some true) || al.S3BucketName.isSome)

/-- Whether an actual subnet mapping trips the update branch of `CheckChanges`:
its id is not expected, or the source's address-setting condition holds. -/
def subnetMismatch (m : List (String × Option String)) (s : awstasks.SubnetMapping) : Bool :=
  match awstasks.mapLookup m (s.Subnet.ID.getD "") with
  | none => true
  | some eIP =>
    decide (fiValueOf eIP ≠ fiValueOf s.PrivateIPv4Address) ||
      decide (fiValueOf eIP ≠ fiValueOf s.AllocationID)

/-- An all-unset `NetworkLoadBalancer`, the base of the concrete examples. -/
def emptyNLB : awstasks.NetworkLoadBalancer :=
  { Name := none, LoadBalancerName := none, CLBName := none, DNSName := none,
    HostedZoneId := none, SubnetMappings := none, Listeners := none, Scheme := none,
    CrossZoneLoadBalancing := none, IpAddressType := none, Tags := [], «Type» := none,
    TargetGroups := none, AccessLog := none }

/-- An all-unset Scaleway `Instance`. -/
def emptyInstance : scalewaytasks.Instance :=
  { Name := none, Zone := none, Role := none, CommercialType := none, Image := none,
    Tags := [], Count := 0 }

/-- A fully specified Scaleway `Instance` (every creation-required field set). -/
def fullInstance : scalewaytasks.Instance :=
  { Name := some "control-plane-fr-par-1", Zone := some "fr-par-1", Role := some "ControlPlane",
    CommercialType := some "DEV1-M", Image := some "ubuntu_jammy", Tags := [], Count := 1 }

/-- Subnet mapping of subnet `subnet-a` carrying an elastic IP allocation. -/
def smAlloc : awstasks.SubnetMapping :=
  { Subnet := { ID := some "subnet-a", ShortName := none, Name := some "a" },
    AllocationID := some "eipalloc-1", PrivateIPv4Address := none }

/-- Subnet mappings with no address settings. -/
def smPlainA : awstasks.SubnetMapping :=
  { Subnet := { ID := some "subnet-a", ShortName := none, Name := some "a" },
    AllocationID := none, PrivateIPv4Address := none }

def smPlainB : awstasks.SubnetMapping :=
  { Subnet := { ID := some "subnet-b", ShortName := none, Name := some "b" },
    AllocationID := none, PrivateIPv4Address := none }

def smPlainC : awstasks.SubnetMapping :=
  { Subnet := { ID := some "subnet-c", ShortName := none, Name := some "c" },
    AllocationID := none, PrivateIPv4Address := none }

/-- Two listeners on the same port bound to different target groups. -/
def listener443a : awstasks.NetworkLoadBalancerListener :=
  { Port := 443, TargetGroupName := "tg-a", SSLCertificateID := "", SSLPolicy := "" }

def listener443b : awstasks.NetworkLoadBalancerListener :=
  { Port := 443, TargetGroupName := "tg-b", SSLCertificateID := "", SSLPolicy := "" }

/-- An HTTP listener on a port distinct from 443. -/
def listener80 : awstasks.NetworkLoadBalancerListener :=
  { Port := 80, TargetGroupName := "tg-http", SSLCertificateID := "", SSLPolicy := "" }

/-- An AWS cloud whose every call succeeds (with empty listings). -/
def okAWSEnv : awstasks.AWSCloudEnv :=
  { describePages := .ok [], createLoadBalancerResult := .ok [], waitResult := .ok (),
    createListenerResult := .ok (), deleteListenerResult := .ok (),
    describeListenersResult := .ok [], setIpAddressTypeResult := .ok (),
    setSubnetsResult := .ok () }

/-- A Scaleway cloud whose every call succeeds. -/
def okScwEnv : scalewaytasks.ScwCloudEnv :=
  { userData := .ok "#cloud-config", createServerResult := .ok default,
    waitForServerResult := .ok (), setUserDataResult := .ok (), serverActionResult := .ok (),
    getServerResult := .ok default, getClusterServersResult := .ok [],
    deleteServerResult := .ok (), getClusterLoadBalancersResult := .ok [],
    listBackendsResult := .ok [], addBackendServersResult := .ok (),
    removeBackendServersResult := .ok (), waitForLbResult := .ok () }

/-! Helper lemmas. -/

theorem checkAccessLog_ne_crosszone (al : Option awstasks.NetworkLoadBalancerAccessLog) :
    isRequiredCrossZone (awstasks.checkAccessLog al) = false := by
  cases al with
  | none => rfl
  | some al =>
    simp only [awstasks.checkAccessLog]
    split
    · rfl
    · split
      · split
        · rfl
        · rfl
      · rfl

theorem checkActualSubnets_ne_crosszone (m : List (String × Option String)) :
    ∀ l, isRequiredCrossZone (awstasks.checkActualSubnets m l) = false
  | [] => rfl
  | s :: rest => by
    simp only [awstasks.checkActualSubnets]
    cases awstasks.mapLookup m (s.Subnet.ID.getD "") with
    | none => rfl
    | some eIP =>
      by_cases hc : fiValueOf eIP ≠ fiValueOf s.PrivateIPv4Address ∨
          fiValueOf eIP ≠ fiValueOf s.AllocationID
      · simp only [if_pos hc]
        rfl
      · simp only [if_neg hc]
        exact checkActualSubnets_ne_crosszone m rest

theorem checkAccessLog_eq_none :
    ∀ al, accessLogFieldsSet al = true → awstasks.checkAccessLog al = none
  | none, _ => rfl
  | some al, h => by
    rcases al with ⟨en, s3, pfx⟩
    cases en with
    | none => simp [accessLogFieldsSet] at h
    | some b =>
      cases b with
      | false => simp [awstasks.checkAccessLog]
      | true =>
        cases s3 with
        | none => simp [accessLogFieldsSet] at h
        | some s => simp [awstasks.checkAccessLog]

theorem checkActualSubnets_isSome_of_any (m : List (String × Option String)) :
    ∀ l, l.any (subnetMismatch m) = true → (awstasks.checkActualSubnets m l).isSome = true
  | s :: rest, h => by
    simp only [List.any_cons, Bool.or_eq_true] at h
    simp only [awstasks.checkActualSubnets]
    rcases hm : awstasks.mapLookup m (s.Subnet.ID.getD "") with _ | eIP
    · rfl
    · by_cases hc : fiValueOf eIP ≠ fiValueOf s.PrivateIPv4Address ∨
          fiValueOf eIP ≠ fiValueOf s.AllocationID
      · simp only [if_pos hc]
        rfl
      · simp only [if_neg hc]
        rcases h with h | h
        · exfalso
          simp only [subnetMismatch, hm, Bool.or_eq_true, decide_eq_true_eq] at h
          exact hc h
        · exact checkActualSubnets_isSome_of_any m rest h

/-! The claims. -/

/-- C2: the spec says `CheckChanges` on a non-nil actual accepts a pure
addition of subnets when the per-subnet address settings match.  The code
rejects it: with actual `{subnet-a: eipalloc-1}` and expected
`{subnet-a: eipalloc-1, subnet-c}` (a superset with identical address
settings), `CheckChanges` returns the "modifying address settings" error
because its condition compares the expected address against both
`PrivateIPv4Address` and `AllocationID` with `||` where the matching
`RenderAWS` delta check uses `&&`. -/
theorem c2_matching_addition_rejected :
    awstasks.NetworkLoadBalancer.CheckChanges
        (some { emptyNLB with SubnetMappings := some [smAlloc] })
        { emptyNLB with SubnetMappings := some [smAlloc, smPlainC] }
        { emptyNLB with SubnetMappings := some [smPlainC] }
      = some (Err.plainError "network load balancers do not support modifying address settings")
    ∧ decide (awstasks.NetworkLoadBalancer.CheckChanges
        (some { emptyNLB with SubnetMappings := some [smAlloc] })
        { emptyNLB with SubnetMappings := some [smAlloc, smPlainC] }
        { emptyNLB with SubnetMappings := some [smPlainC] }
      = none) = false :=
  ⟨by decide, by decide⟩

/-- C3 counterexample: a `NetworkLoadBalancer` with `CLBName` set whose legacy
classic load balancer still exists and still has a registered instance — the
replacement is not confirmed functioning, yet `FindDeletions` schedules the
deletion (the registered-targets check is commented out in the source). -/
theorem c3_counterexample_clb_with_targets_deleted :
    awstasks.NetworkLoadBalancer.FindDeletions
        { emptyNLB with CLBName := some "api.cluster1" }
        (.ok (some { LoadBalancerName := some "api-cluster1", Instances := ["i-0abc123"] }))
      = .ok [{ LoadBalancerName := some "api-cluster1" }]
    ∧ decide (awstasks.NetworkLoadBalancer.FindDeletions
        { emptyNLB with CLBName := some "api.cluster1" }
        (.ok (some { LoadBalancerName := some "api-cluster1", Instances := ["i-0abc123"] }))
      = .ok []) = false :=
  ⟨by decide, by decide⟩

/-- C3 amended: for a task with non-nil `CLBName` whose classic load balancer
still exists, `FindDeletions` schedules its deletion unconditionally —
regardless of registered targets; when `CLBName` is nil or the classic load
balancer no longer exists, no deletion is returned. -/
theorem c3_find_deletions_unconditional (e : awstasks.NetworkLoadBalancer)
    (look : Except Err (Option awstasks.ClassicLoadBalancer)) :
    (e.CLBName = none → e.FindDeletions look = .ok [])
    ∧ (∀ lb, e.CLBName.isSome = true → look = .ok (some lb) →
        e.FindDeletions look = .ok [{ LoadBalancerName := lb.LoadBalancerName }])
    ∧ (e.CLBName.isSome = true → look = .ok none → e.FindDeletions look = .ok []) := by
  refine ⟨fun h => ?_, fun lb hs hl => ?_, fun hs hl => ?_⟩
  · simp [awstasks.NetworkLoadBalancer.FindDeletions, h]
  · rcases hc : e.CLBName with _ | n
    · rw [hc] at hs; simp at hs
    · simp [awstasks.NetworkLoadBalancer.FindDeletions, hc, hl]
  · rcases hc : e.CLBName with _ | n
    · rw [hc] at hs; simp at hs
    · simp [awstasks.NetworkLoadBalancer.FindDeletions, hc, hl]

/-- C3 witness: the amended statement at concrete inputs — a still-existing
classic load balancer is scheduled, a nil `CLBName` and a vanished classic
load balancer are not. -/
theorem c3_witness :
    awstasks.NetworkLoadBalancer.FindDeletions
        { emptyNLB with CLBName := some "api.cluster1" }
        (.ok (some { LoadBalancerName := some "api-cluster1", Instances := [] }))
      = .ok [{ LoadBalancerName := some "api-cluster1" }]
    ∧ awstasks.NetworkLoadBalancer.FindDeletions emptyNLB (.ok none) = .ok []
    ∧ awstasks.NetworkLoadBalancer.FindDeletions
        { emptyNLB with CLBName := some "api.cluster1" } (.ok none) = .ok [] :=
  ⟨(c3_find_deletions_unconditional _ _).2.1
      { LoadBalancerName := some "api-cluster1", Instances := [] } rfl rfl,
    (c3_find_deletions_unconditional _ _).1 rfl,
    (c3_find_deletions_unconditional _ _).2.2 rfl rfl⟩

/-- C5: the spec says a "LoadBalancerNotFound" provider error code yields
`(nil, nil)`.  In `findNetworkLoadBalancerByLoadBalancerName` that branch is
dead: `describeNetworkLoadBalancers` wraps every SDK error with `fmt.Errorf`,
the `awserr.Error` type assertion fails on the wrapped error, and the
not-found code is propagated as a doubly wrapped listing error instead of a
nil result. -/
theorem c5_not_found_code_propagates :
    awstasks.findNetworkLoadBalancerByLoadBalancerName "api.cluster1"
        (.error (Err.awsError "LoadBalancerNotFound" "Load balancers not found"))
      = .error (Err.plainError "error listing NLBs: error listing NLBs: Load balancers not found")
    ∧ decide (awstasks.findNetworkLoadBalancerByLoadBalancerName "api.cluster1"
        (.error (Err.awsError "LoadBalancerNotFound" "Load balancers not found"))
      = .ok none) = false :=
  ⟨by decide, by decide⟩

/-- C8: the OpenStack client's three backoff policies are pairwise distinct;
the read policy has strictly more steps (10 vs 4) and a strictly smaller
exponential factor (1.5 vs 5) than the delete policy. -/
theorem c8_backoff_policies :
    openstack.readBackoff.Steps = 10 ∧ openstack.writeBackoff.Steps = 5
    ∧ openstack.deleteBackoff.Steps = 4
    ∧ openstack.deleteBackoff.Steps < openstack.readBackoff.Steps
    ∧ openstack.readBackoff.Factor = 3/2 ∧ openstack.deleteBackoff.Factor = 5
    ∧ openstack.readBackoff.Factor < openstack.deleteBackoff.Factor
    ∧ openstack.readBackoff ≠ openstack.writeBackoff
    ∧ openstack.readBackoff ≠ openstack.deleteBackoff
    ∧ openstack.writeBackoff ≠ openstack.deleteBackoff := by
  refine ⟨rfl, rfl, rfl, by decide, rfl, rfl, ?_, ?_, ?_, ?_⟩
  · show (3/2 : ℚ) < 5
    norm_num
  · intro h
    exact absurd (congrArg openstack.Backoff.Steps h) (by decide)
  · intro h
    exact absurd (congrArg openstack.Backoff.Steps h) (by decide)
  · intro h
    exact absurd (congrArg openstack.Backoff.Steps h) (by decide)

/-- C9: `CheckChanges` never returns `RequiredField("CrossZoneLoadBalancing")`:
the branch guards `e.CrossZoneLoadBalancing != nil` outside and
`== nil` inside, so it is unreachable. -/
theorem c9_crosszone_required_never_returned
    (a : Option awstasks.NetworkLoadBalancer) (e changes : awstasks.NetworkLoadBalancer) :
    isRequiredCrossZone (awstasks.NetworkLoadBalancer.CheckChanges a e changes) = false := by
  cases a with
  | none =>
    simp only [awstasks.NetworkLoadBalancer.CheckChanges]
    split
    · rfl
    · split
      · rfl
      · split
        · rename_i hsome
          split
          · rename_i hnone
            rw [Option.isNone_iff_eq_none] at hnone
            rw [hnone] at hsome
            simp at hsome
          · exact checkAccessLog_ne_crosszone e.AccessLog
        · exact checkAccessLog_ne_crosszone e.AccessLog
  | some a0 =>
    simp only [awstasks.NetworkLoadBalancer.CheckChanges]
    split
    · exact checkActualSubnets_ne_crosszone _ _
    · rfl

/-- C10: when the number of listeners differs from the number of target
groups, `RenderAWS` fails with the mismatch error before issuing any cloud
API call (the trace of issued calls is empty), for creation and update alike. -/
theorem c10_length_mismatch_fails_before_any_call (env : awstasks.AWSCloudEnv)
    (a : Option awstasks.NetworkLoadBalancer) (e changes : awstasks.NetworkLoadBalancer)
    (h : (e.Listeners.getD []).length ≠ (e.TargetGroups.getD []).length) :
    awstasks.NetworkLoadBalancer.RenderAWS env a e changes
      = (.error (Err.plainError ("nlb listeners and target groups do not match: " ++
          toString (e.Listeners.getD []).length ++ " listeners vs " ++
          toString (e.TargetGroups.getD []).length ++ " target groups")), []) := by
  simp [awstasks.NetworkLoadBalancer.RenderAWS, h]

/-- C10 witness: a task with one listener and no target group fails the
length check with an empty call trace. -/
theorem c10_witness :
    awstasks.NetworkLoadBalancer.RenderAWS okAWSEnv none
        { emptyNLB with Listeners := some [listener443a] } emptyNLB
      = (.error (Err.plainError
          "nlb listeners and target groups do not match: 1 listeners vs 0 target groups"), []) :=
  c10_length_mismatch_fails_before_any_call okAWSEnv none
    { emptyNLB with Listeners := some [listener443a] } emptyNLB (by decide)

/-- C1: on creation (`actual == nil`) `CheckChanges` returns
`RequiredField("Name")` when `Name` is empty, `RequiredField("SubnetMappings")`
when the subnet mappings are empty, and nil when every contract-required field
is set (for the NLB: `Name`, `SubnetMappings` and the conditional `AccessLog`
fields); the Scaleway `Instance` likewise requires `Name`, `Zone`,
`CommercialType` and `Image` in that order and accepts when all four are set. -/
theorem c1_creation_required_fields :
    (∀ e changes : awstasks.NetworkLoadBalancer,
      (fiValueOf e.Name = "" →
        awstasks.NetworkLoadBalancer.CheckChanges none e changes
          = some (Err.requiredField "Name"))
      ∧ (fiValueOf e.Name ≠ "" → e.SubnetMappings.getD [] = [] →
        awstasks.NetworkLoadBalancer.CheckChanges none e changes
          = some (Err.requiredField "SubnetMappings"))
      ∧ (fiValueOf e.Name ≠ "" → e.SubnetMappings.getD [] ≠ [] →
          accessLogFieldsSet e.AccessLog = true →
        awstasks.NetworkLoadBalancer.CheckChanges none e changes = none))
    ∧ (∀ expected changes : scalewaytasks.Instance,
      (expected.Name = none →
        scalewaytasks.Instance.CheckChanges none expected changes
          = some (Err.requiredField "Name"))
      ∧ (expected.Name.isSome = true → expected.Zone = none →
        scalewaytasks.Instance.CheckChanges none expected changes
          = some (Err.requiredField "Zone"))
      ∧ (expected.Name.isSome = true → expected.Zone.isSome = true →
          expected.CommercialType = none →
        scalewaytasks.Instance.CheckChanges none expected changes
          = some (Err.requiredField "CommercialType"))
      ∧ (expected.Name.isSome = true → expected.Zone.isSome = true →
          expected.CommercialType.isSome = true → expected.Image = none →
        scalewaytasks.Instance.CheckChanges none expected changes
          = some (Err.requiredField "Image"))
      ∧ (expected.Name.isSome = true → expected.Zone.isSome = true →
          expected.CommercialType.isSome = true → expected.Image.isSome = true →
        scalewaytasks.Instance.CheckChanges none expected changes = none)) := by
  constructor
  · intro e changes
    refine ⟨fun h => ?_, fun h1 h2 => ?_, fun h1 h2 h3 => ?_⟩
    · simp [awstasks.NetworkLoadBalancer.CheckChanges, h]
    · simp [awstasks.NetworkLoadBalancer.CheckChanges, h1, h2]
    · have hal := checkAccessLog_eq_none e.AccessLog h3
      cases hcz : e.CrossZoneLoadBalancing with
      | none => simp [awstasks.NetworkLoadBalancer.CheckChanges, h1, h2, hcz, hal]
      | some b => simp [awstasks.NetworkLoadBalancer.CheckChanges, h1, h2, hcz, hal]
  · intro expected changes
    refine ⟨fun h => ?_, fun h1 h2 => ?_, fun h1 h2 h3 => ?_, fun h1 h2 h3 h4 => ?_,
      fun h1 h2 h3 h4 => ?_⟩
    · simp [scalewaytasks.Instance.CheckChanges, h]
    · simp [scalewaytasks.Instance.CheckChanges, Option.isNone_iff_eq_none,
        Option.isSome_iff_ne_none.mp h1, h2]
    · simp [scalewaytasks.Instance.CheckChanges, Option.isNone_iff_eq_none,
        Option.isSome_iff_ne_none.mp h1, Option.isSome_iff_ne_none.mp h2, h3]
    · simp [scalewaytasks.Instance.CheckChanges, Option.isNone_iff_eq_none,
        Option.isSome_iff_ne_none.mp h1, Option.isSome_iff_ne_none.mp h2,
        Option.isSome_iff_ne_none.mp h3, h4]
    · simp [scalewaytasks.Instance.CheckChanges, Option.isNone_iff_eq_none,
        Option.isSome_iff_ne_none.mp h1, Option.isSome_iff_ne_none.mp h2,
        Option.isSome_iff_ne_none.mp h3, Option.isSome_iff_ne_none.mp h4]

/-- C1 witness: the scenarios at concrete inputs — an empty name, an empty
subnet mapping list, a fully specified NLB, an empty Scaleway instance and a
fully specified one. -/
theorem c1_witness :
    awstasks.NetworkLoadBalancer.CheckChanges none emptyNLB emptyNLB
      = some (Err.requiredField "Name")
    ∧ awstasks.NetworkLoadBalancer.CheckChanges none
        { emptyNLB with Name := some "api.cluster1", SubnetMappings := some [] } emptyNLB
      = some (Err.requiredField "SubnetMappings")
    ∧ awstasks.NetworkLoadBalancer.CheckChanges none
        { emptyNLB with Name := some "api.cluster1", SubnetMappings := some [smPlainA] } emptyNLB
      = none
    ∧ scalewaytasks.Instance.CheckChanges none emptyInstance emptyInstance
      = some (Err.requiredField "Name")
    ∧ scalewaytasks.Instance.CheckChanges none fullInstance emptyInstance = none :=
  ⟨(c1_creation_required_fields.1 emptyNLB emptyNLB).1 rfl,
    (c1_creation_required_fields.1
      { emptyNLB with Name := some "api.cluster1", SubnetMappings := some [] } emptyNLB).2.1
      (by decide) rfl,
    (c1_creation_required_fields.1
      { emptyNLB with Name := some "api.cluster1", SubnetMappings := some [smPlainA] }
      emptyNLB).2.2 (by decide) (by decide) rfl,
    (c1_creation_required_fields.2 emptyInstance emptyInstance).1 rfl,
    (c1_creation_required_fields.2 fullInstance emptyInstance).2.2.2.2 rfl rfl rfl rfl⟩

/-- C4 counterexample: on the NLB, a delta that detaches a subnet (an
immutable aspect per the claim) makes `CheckChanges` fail with a plain
`fmt.Errorf` error, not with a `CannotChangeField` error, so the claim's
"always returns a CannotChangeField error" is false as stated. -/
theorem c4_counterexample_nlb_error_not_cannotchange :
    awstasks.NetworkLoadBalancer.CheckChanges
        (some { emptyNLB with SubnetMappings := some [smPlainA, smPlainB] })
        { emptyNLB with SubnetMappings := some [smPlainA, smPlainC] }
        { emptyNLB with SubnetMappings := some [smPlainC] }
      = some (Err.plainError "network load balancers do not support detaching subnets")
    ∧ isCannotChange (awstasks.NetworkLoadBalancer.CheckChanges
        (some { emptyNLB with SubnetMappings := some [smPlainA, smPlainB] })
        { emptyNLB with SubnetMappings := some [smPlainA, smPlainC] }
        { emptyNLB with SubnetMappings := some [smPlainC] }) = false :=
  ⟨by decide, by decide⟩

/-- C4 amended: with non-nil actual, a delta touching an immutable field
always yields an error, never nil — for the Scaleway `Instance` it is a
`CannotChangeField` error (`Name`, `Zone`, `CommercialType`, `Image`); for
the NLB a subnet detachment or address-setting mismatch yields a descriptive
`fmt.Errorf` error (not a `CannotChangeField`). -/
theorem c4_immutable_field_changes_always_error :
    (∀ a expected changes : scalewaytasks.Instance,
      (changes.Name.isSome = true ∨ changes.Zone.isSome = true ∨
        changes.CommercialType.isSome = true ∨ changes.Image.isSome = true) →
      isCannotChange (scalewaytasks.Instance.CheckChanges (some a) expected changes) = true)
    ∧ (∀ a e changes : awstasks.NetworkLoadBalancer,
      0 < (changes.SubnetMappings.getD []).length →
      (a.SubnetMappings.getD []).any
          (subnetMismatch (awstasks.expectedSubnetsMap (e.SubnetMappings.getD []))) = true →
      (awstasks.NetworkLoadBalancer.CheckChanges (some a) e changes).isSome = true) := by
  constructor
  · intro a expected changes h
    simp only [scalewaytasks.Instance.CheckChanges]
    by_cases h1 : changes.Name.isSome = true
    · simp [h1, isCannotChange]
    · by_cases h2 : changes.Zone.isSome = true
      · simp [h1, h2, isCannotChange]
      · by_cases h3 : changes.CommercialType.isSome = true
        · simp [h1, h2, h3, isCannotChange]
        · by_cases h4 : changes.Image.isSome = true
          · simp [h1, h2, h3, h4, isCannotChange]
          · rcases h with h | h | h | h <;> simp_all
  · intro a e changes h1 h2
    simp only [awstasks.NetworkLoadBalancer.CheckChanges]
    rw [if_pos h1]
    exact checkActualSubnets_isSome_of_any _ _ h2

/-- C4 witness: the amended statement at concrete inputs — a Scaleway delta
renaming the group yields `CannotChangeField`, an NLB delta removing a subnet
yields an error. -/
theorem c4_witness :
    isCannotChange (scalewaytasks.Instance.CheckChanges (some fullInstance) fullInstance
        { emptyInstance with Name := some "renamed" }) = true
    ∧ (awstasks.NetworkLoadBalancer.CheckChanges
        (some { emptyNLB with SubnetMappings := some [smPlainA, smPlainB] })
        { emptyNLB with SubnetMappings := some [smPlainA, smPlainC] }
        { emptyNLB with SubnetMappings := some [smPlainC] }).isSome = true :=
  ⟨c4_immutable_field_changes_always_error.1 fullInstance fullInstance
      { emptyInstance with Name := some "renamed" } (Or.inl rfl),
    c4_immutable_field_changes_always_error.2
      { emptyNLB with SubnetMappings := some [smPlainA, smPlainB] }
      { emptyNLB with SubnetMappings := some [smPlainA, smPlainC] }
      { emptyNLB with SubnetMappings := some [smPlainC] }
      (by decide) (by decide)⟩

/-! Sorting lemmas for C6. -/

theorem sortByKey_idem {α K : Type} [LinearOrder K] (key : α → K) (l : List α) :
    awstasks.sortByKey key (awstasks.sortByKey key l) = awstasks.sortByKey key l := by
  haveI : IsTotal α fun a b => key a ≤ key b := ⟨fun a b => le_total (key a) (key b)⟩
  haveI : IsTrans α fun a b => key a ≤ key b := ⟨fun a b c hab hbc => le_trans hab hbc⟩
  exact (List.sorted_insertionSort _ l).insertionSort_eq

theorem sortByKey_congr_of_perm {α K : Type} [LinearOrder K] (key : α → K)
    {l₁ l₂ : List α} (hp : l₁.Perm l₂) (hnd : (l₁.map key).Nodup) :
    awstasks.sortByKey key l₁ = awstasks.sortByKey key l₂ := by
  haveI : IsTotal α fun a b => key a ≤ key b := ⟨fun a b => le_total (key a) (key b)⟩
  haveI : IsTrans α fun a b => key a ≤ key b := ⟨fun a b c hab hbc => le_trans hab hbc⟩
  haveI : IsAntisymm α fun a b => key a < key b ∨ a = b := ⟨by
    intro a b hab hba
    rcases hab with h | h
    · rcases hba with h' | h'
      · exact absurd (h.trans h') (lt_irrefl _)
      · exact h'.symm
    · exact h⟩
  have hperm : (awstasks.sortByKey key l₁).Perm (awstasks.sortByKey key l₂) :=
    (List.perm_insertionSort _ l₁).trans (hp.trans (List.perm_insertionSort _ l₂).symm)
  have hnd₁ : ((awstasks.sortByKey key l₁).map key).Nodup :=
    ((List.perm_insertionSort _ l₁).map key).nodup_iff.mpr hnd
  have hnd₂ : ((awstasks.sortByKey key l₂).map key).Nodup :=
    ((List.perm_insertionSort _ l₂).map key).nodup_iff.mpr ((hp.map key).nodup_iff.mp hnd)
  have hs₁ : (awstasks.sortByKey key l₁).Pairwise fun a b => key a ≤ key b :=
    List.sorted_insertionSort _ l₁
  have hs₂ : (awstasks.sortByKey key l₂).Pairwise fun a b => key a ≤ key b :=
    List.sorted_insertionSort _ l₂
  have hne₁ : (awstasks.sortByKey key l₁).Pairwise fun a b => key a ≠ key b := by
    simpa [List.Nodup, List.pairwise_map] using hnd₁
  have hne₂ : (awstasks.sortByKey key l₂).Pairwise fun a b => key a ≠ key b := by
    simpa [List.Nodup, List.pairwise_map] using hnd₂
  have hlt₁ : (awstasks.sortByKey key l₁).Pairwise fun a b => key a < key b ∨ a = b :=
    (hs₁.and hne₁).imp fun h => Or.inl (lt_of_le_of_ne h.1 h.2)
  have hlt₂ : (awstasks.sortByKey key l₂).Pairwise fun a b => key a < key b ∨ a = b :=
    (hs₂.and hne₂).imp fun h => Or.inl (lt_of_le_of_ne h.1 h.2)
  exact List.eq_of_perm_of_sorted hperm hlt₁ hlt₂

theorem optionMap_sortListeners_idem (o : Option (List awstasks.NetworkLoadBalancerListener)) :
    (o.map awstasks.sortListeners).map awstasks.sortListeners = o.map awstasks.sortListeners := by
  cases o <;> simp [awstasks.sortListeners, sortByKey_idem]

theorem optionMap_sortSubnetMappings_idem (o : Option (List awstasks.SubnetMapping)) :
    (o.map awstasks.sortSubnetMappings).map awstasks.sortSubnetMappings
      = o.map awstasks.sortSubnetMappings := by
  cases o <;> simp [awstasks.sortSubnetMappings, sortByKey_idem]

theorem optionMap_sortTargetGroups_idem (o : Option (List awstasks.TargetGroup)) :
    (o.map awstasks.sortTargetGroups).map awstasks.sortTargetGroups
      = o.map awstasks.sortTargetGroups := by
  cases o <;> simp [awstasks.sortTargetGroups, sortByKey_idem]

/-- C6 counterexample: two listeners on the same port in the two input orders
are the same logical set (a permutation) yet normalize to different ordered
sequences — the stable sort by port keeps the input order of equal ports, so
`Normalize` is not order-independent as claimed. -/
theorem c6_counterexample_duplicate_ports :
    decide (awstasks.NetworkLoadBalancer.Normalize []
          { emptyNLB with Listeners := some [listener443a, listener443b] }
        = awstasks.NetworkLoadBalancer.Normalize []
          { emptyNLB with Listeners := some [listener443b, listener443a] }) = false
    ∧ decide (List.Perm [listener443a, listener443b] [listener443b, listener443a]) = true :=
  ⟨by decide, by decide⟩

/-- C6 amended: `Normalize` is idempotent unconditionally, and it is
order-independent whenever the sort keys are pairwise distinct — listener
ports, subnet-mapping subnet names and target-group names without duplicates;
permuted inputs then normalize to identical task values. -/
theorem c6_normalize_canonicalizes (cs : List awstasks.ClusterSubnet)
    (e : awstasks.NetworkLoadBalancer)
    (sms₁ sms₂ : List awstasks.SubnetMapping)
    (ls₁ ls₂ : List awstasks.NetworkLoadBalancerListener)
    (tgs₁ tgs₂ : List awstasks.TargetGroup)
    (hsm : sms₁.Perm sms₂) (hls : ls₁.Perm ls₂) (htg : tgs₁.Perm tgs₂)
    (hndsm : (sms₁.map fun s => fiValueOf s.Subnet.Name).Nodup)
    (hndls : (ls₁.map fun l => l.Port).Nodup)
    (hndtg : (tgs₁.map fun t => fiValueOf t.Name).Nodup) :
    awstasks.NetworkLoadBalancer.Normalize cs
        { e with SubnetMappings := some sms₁, Listeners := some ls₁, TargetGroups := some tgs₁ }
      = awstasks.NetworkLoadBalancer.Normalize cs
        { e with SubnetMappings := some sms₂, Listeners := some ls₂, TargetGroups := some tgs₂ }
    ∧ (∀ x : awstasks.NetworkLoadBalancer,
        awstasks.NetworkLoadBalancer.Normalize cs (awstasks.NetworkLoadBalancer.Normalize cs x)
          = awstasks.NetworkLoadBalancer.Normalize cs x) := by
  constructor
  · have hsm' : awstasks.sortSubnetMappings sms₁ = awstasks.sortSubnetMappings sms₂ :=
      sortByKey_congr_of_perm _ hsm hndsm
    have hls' : awstasks.sortListeners ls₁ = awstasks.sortListeners ls₂ :=
      sortByKey_congr_of_perm _ hls hndls
    have htg' : awstasks.sortTargetGroups tgs₁ = awstasks.sortTargetGroups tgs₂ :=
      sortByKey_congr_of_perm _ htg hndtg
    simp [awstasks.NetworkLoadBalancer.Normalize, hsm', hls', htg']
  · intro x
    simp only [awstasks.NetworkLoadBalancer.Normalize]
    rw [optionMap_sortSubnetMappings_idem, optionMap_sortListeners_idem,
      optionMap_sortTargetGroups_idem]

/-- C6 witness: the amended statement at concrete inputs — distinct ports
`[443, 80]` against `[80, 443]` normalize identically, and normalizing twice
equals normalizing once. -/
theorem c6_witness :
    awstasks.NetworkLoadBalancer.Normalize []
        { emptyNLB with
          SubnetMappings := some [],
          Listeners := some [listener443a, listener80],
          TargetGroups := some [] }
      = awstasks.NetworkLoadBalancer.Normalize []
        { emptyNLB with
          SubnetMappings := some [],
          Listeners := some [listener80, listener443a],
          TargetGroups := some [] }
    ∧ awstasks.NetworkLoadBalancer.Normalize []
        (awstasks.NetworkLoadBalancer.Normalize [] emptyNLB)
      = awstasks.NetworkLoadBalancer.Normalize [] emptyNLB :=
  ⟨(c6_normalize_canonicalizes [] emptyNLB [] []
      [listener443a, listener80] [listener80, listener443a]
      [] [] (by decide) (by decide) (by decide) (by decide) (by decide) (by decide)).1,
    (c6_normalize_canonicalizes [] emptyNLB [] [] [] [] [] []
      (by decide) (by decide) (by decide) (by decide) (by decide) (by decide)).2 emptyNLB⟩

/-! Lemmas for C7. -/

theorem addELBV2TagsCalls_self (t : List (String × String)) :
    awstasks.addELBV2TagsCalls t t = [] := by
  simp only [awstasks.addELBV2TagsCalls]
  rw [if_pos]
  simp only [List.all_eq_true, List.contains]
  intro kv hkv
  exact List.elem_iff.mpr hkv

theorem removeELBV2TagsCalls_self (t : List (String × String)) :
    awstasks.removeELBV2TagsCalls t t = [] := by
  simp only [awstasks.removeELBV2TagsCalls]
  rw [if_pos]
  simp only [List.all_eq_true, List.contains]
  intro kv hkv
  exact List.elem_iff.mpr (List.mem_map_of_mem Prod.fst hkv)

theorem renderAWSUpdate_no_mutating_calls (env : awstasks.AWSCloudEnv)
    (a e changes : awstasks.NetworkLoadBalancer)
    (h1 : changes.IpAddressType = none) (h2 : changes.SubnetMappings = none)
    (h3 : changes.Listeners = none) (h4 : changes.CrossZoneLoadBalancing = none)
    (h5 : changes.AccessLog = none) (htags : a.Tags = e.Tags) :
    (awstasks.renderAWSUpdate env a e changes).2.filter awstasks.AWSCall.isMutating = [] := by
  simp only [awstasks.renderAWSUpdate]
  rcases awstasks.findNetworkLoadBalancerByLoadBalancerName (fiValueOf a.LoadBalancerName)
      env.describePages with err | lbOpt
  · rfl
  · rcases lbOpt with _ | lb
    · rfl
    · simp [awstasks.seqSteps, awstasks.stepSetIpAddressType, awstasks.stepSetSubnets,
        awstasks.stepListeners, awstasks.modifyLoadBalancerAttributesCalls,
        h1, h2, h3, h4, h5, htags, addELBV2TagsCalls_self, removeELBV2TagsCalls_self,
        awstasks.AWSCall.isMutating]

/-- C7: re-applying a converged task mutates nothing — when the changes object
carries no delta (every changed field nil) and the tags already agree, the NLB
update path of `RenderAWS` issues zero mutating cloud calls (only the lookup
reads); and `RenderScw` returns nil at once, with no cloud call at all, when
the actual instance count equals the expected one. -/
theorem c7_converged_reapply_issues_no_mutations (env : awstasks.AWSCloudEnv)
    (a e changes : awstasks.NetworkLoadBalancer)
    (h1 : changes.IpAddressType = none) (h2 : changes.SubnetMappings = none)
    (h3 : changes.Listeners = none) (h4 : changes.CrossZoneLoadBalancing = none)
    (h5 : changes.AccessLog = none) (htags : a.Tags = e.Tags)
    (senv : scalewaytasks.ScwCloudEnv) (sa se : scalewaytasks.Instance)
    (hud : senv.userData.isOk = true) (hcount : se.Count = sa.Count) :
    (awstasks.NetworkLoadBalancer.RenderAWS env (some a) e changes).2.filter
        awstasks.AWSCall.isMutating = []
    ∧ scalewaytasks.Instance.RenderScw senv (some sa) se = (.ok (), []) := by
  constructor
  · simp only [awstasks.NetworkLoadBalancer.RenderAWS]
    split
    · rfl
    · exact renderAWSUpdate_no_mutating_calls env a e changes h1 h2 h3 h4 h5 htags
  · rcases hu : senv.userData with err | s
    · rw [hu] at hud
      simp [Except.isOk, Except.toBool] at hud
    · simp only [scalewaytasks.Instance.RenderScw, hu]
      simp [hcount]

/-- C7 witness: the statement at concrete inputs — an empty changes object on
the NLB update path and a Scaleway group whose counts already agree. -/
theorem c7_witness :
    (awstasks.NetworkLoadBalancer.RenderAWS okAWSEnv (some emptyNLB) emptyNLB emptyNLB).2.filter
        awstasks.AWSCall.isMutating = []
    ∧ scalewaytasks.Instance.RenderScw okScwEnv (some fullInstance) fullInstance = (.ok (), []) :=
  c7_converged_reapply_issues_no_mutations okAWSEnv emptyNLB emptyNLB emptyNLB
    rfl rfl rfl rfl rfl rfl okScwEnv fullInstance fullInstance rfl rfl
